import Mathlib

/-!
Verification development for the evidence-synthesis core of the
jupyterlab-research-assistant repository: the WWC quality-assessment
decision procedure (`services/wwc_assessor.py`) and the random-effects
meta-analysis engine (`services/meta_analyzer.py`).

Real numbers produced by the Python code are modelled as rationals (`ℚ`).
Irrational primitives (square root, distribution CDFs, t critical values,
matrix condition numbers) live in the external numerics libraries
(numpy/scipy/statsmodels); they are abstracted as a `Kernel` of function
parameters, constrained only by the mathematical facts the proofs need.
-/

namespace WWC

/-- Python `str.upper()` for the ASCII strings this code compares
(structural, so that it evaluates on literals). -/
def pyUpper (s : String) : String := ⟨s.data.map Char.toUpper⟩

/-- WWC quality rating levels (`WWCRating` enum in `wwc_assessor.py`). -/
inductive WWCRating
  | meets_without_reservations
  | meets_with_reservations
  | does_not_meet
deriving DecidableEq

/-- Attrition boundary types (`AttritionBoundary` enum). -/
inductive AttritionBoundary
  | optimistic
  | cautious
deriving DecidableEq

/-- The `ATTRITION_BOUNDARIES` class table, already listed in ascending key
order, matching `sorted(boundary_table.items())` in `is_low_attrition`.
Each pair is (overall-attrition threshold, max differential attrition). -/
def ATTRITION_BOUNDARIES : AttritionBoundary → List (ℚ × ℚ)
  | .cautious => [(10/100, 5/100), (20/100, 3/100), (30/100, 1/100), (40/100, 0)]
  | .optimistic => [(10/100, 7/100), (20/100, 5/100), (30/100, 3/100), (40/100, 1/100)]

/-- The ascending scan in `is_low_attrition`: first threshold the overall
rate satisfies decides, via its paired differential threshold. -/
def scanBoundaries (overall differential : ℚ) : List (ℚ × ℚ) → Bool
  | [] => false
  | (t, d) :: rest =>
      if overall ≤ t then decide (differential ≤ d)
      else scanBoundaries overall differential rest

/-- `WWCQualityAssessor.is_low_attrition`. The Python `None` guard is not
modelled: arguments here are the non-null rationals the claims quantify
over. -/
def is_low_attrition (overall differential : ℚ)
    (boundary : AttritionBoundary) : Bool :=
  if overall > 40/100 then false
  else scanBoundaries overall differential (ATTRITION_BOUNDARIES boundary)

/-- Status half of the result of `calculate_baseline_equivalence`. -/
inductive BaselineStatus
  | equivalent
  | adjustable
  | not_equivalent
deriving DecidableEq

/-- Result of `calculate_baseline_equivalence` (the dict with keys
`effect_size`, `status`, `message`). -/
structure BaselineResult where
  effect_size : ℚ
  status : BaselineStatus
  message : String
deriving DecidableEq

/-- `WWCQualityAssessor.calculate_baseline_equivalence`. `sq` stands for
the real square root `x ** 0.5` applied to the nonnegative pooled
variance. -/
def calculate_baseline_equivalence (sq : ℚ → ℚ)
    (treatment_mean control_mean treatment_sd control_sd : ℚ) :
    BaselineResult :=
  let pooled_sd := sq ((treatment_sd ^ 2 + control_sd ^ 2) / 2)
  if pooled_sd = 0 then
    { effect_size := 0, status := .equivalent,
      message := "No variance in baseline measures" }
  else
    let d := (treatment_mean - control_mean) / pooled_sd
    let abs_d := |d|
    if abs_d ≤ 5/100 then
      { effect_size := d, status := .equivalent,
        message := "Baseline groups are equivalent (at most 0.05 SD difference)" }
    else if abs_d ≤ 25/100 then
      { effect_size := d, status := .adjustable,
        message := "Baseline groups require statistical adjustment (0.05 to 0.25 SD difference)" }
    else
      { effect_size := d, status := .not_equivalent,
        message := "Baseline groups are not equivalent (over 0.25 SD difference)" }

/-- Entries of `rating_justification`. The Python strings interpolate the
attrition percentages; the constructors carry those payloads instead of a
formatted string. -/
inductive Justification
  | randomizationNotDocumented
  | attritionIncompleteWarning
  | baselineIncompleteWarning
  | baselineMessage (msg : String)
  | baselineAdjustmentNotConfirmed (msg : String)
  | baselineAdjustmentConfirmed (msg : String)
  | lowAttrition (overall differential : Option ℚ)
  | highAttritionEquivalenceSatisfied (overall differential : Option ℚ)
  | highAttritionNotSatisfied (overall differential : Option ℚ)
  | insufficientData
deriving DecidableEq

/-- The `WWCAssessment` dataclass. -/
structure WWCAssessment where
  chosen_attrition_boundary : AttritionBoundary := .cautious
  adjustment_strategy_is_valid : Option Bool := none
  randomization_documented : Option Bool := none
  is_rct : Bool := true
  overall_attrition : Option ℚ := none
  differential_attrition : Option ℚ := none
  is_high_attrition : Option Bool := none
  baseline_effect_size : Option ℚ := none
  baseline_equivalence_satisfied : Option Bool := none
  final_rating : WWCRating := .does_not_meet
  rating_justification : List Justification := []
  paper_id : Option Nat := none
  paper_title : Option String := none
deriving DecidableEq

/-- The `extracted_data` dict consumed by `assess`; the nested
`baseline_means` / `baseline_sds` dicts are flattened into four optional
fields. -/
structure ExtractedData where
  baseline_n : Option ℚ := none
  endline_n : Option ℚ := none
  treatment_attrition : Option ℚ := none
  control_attrition : Option ℚ := none
  methodology : String := ""
  randomization_documented : Option Bool := none
  baseline_mean_treatment : Option ℚ := none
  baseline_mean_control : Option ℚ := none
  baseline_sd_treatment : Option ℚ := none
  baseline_sd_control : Option ℚ := none
  paper_id : Option Nat := none
  paper_title : Option String := none
deriving DecidableEq

/-- The `user_judgments` dict consumed by `assess`. -/
structure UserJudgments where
  chosen_attrition_boundary : Option String := none
  adjustment_strategy_is_valid : Option Bool := none
  randomization_documented : Option Bool := none
deriving DecidableEq

/-- Boundary parsing at the top of `assess`: missing key defaults to
cautious, and an invalid string falls back to cautious (with a logged
warning). -/
def parseBoundary (u : UserJudgments) : AttritionBoundary :=
  match u.chosen_attrition_boundary.getD ("cautious") with
  | "cautious" => .cautious
  | "optimistic" => .optimistic
  | _ => .cautious

/-- `user_judgments.get("randomization_documented",
extracted_data.get("randomization_documented"))`; an absent key and an
explicit `None` are modelled uniformly as `none`. -/
def resolvedRandomization (e : ExtractedData) (u : UserJudgments) :
    Option Bool :=
  u.randomization_documented <|> e.randomization_documented

/-- Step 2 of `assess`, first branch condition: Python truthiness of both
sample sizes (`baseline_n and endline_n`) plus `baseline_n > 0`, else the
mean-of-attrition-rates approximation, else null. -/
def computeOverallAttrition (e : ExtractedData) : Option ℚ :=
  match e.baseline_n, e.endline_n with
  | some b, some en =>
      if b ≠ 0 ∧ en ≠ 0 ∧ b > 0 then some ((b - en) / b)
      else
        match e.treatment_attrition, e.control_attrition with
        | some t, some c => some ((t + c) / 2)
        | _, _ => none
  | _, _ =>
      match e.treatment_attrition, e.control_attrition with
      | some t, some c => some ((t + c) / 2)
      | _, _ => none

/-- Step 2 of `assess`: differential attrition when both rates present. -/
def computeDifferentialAttrition (e : ExtractedData) : Option ℚ :=
  match e.treatment_attrition, e.control_attrition with
  | some t, some c => some |t - c|
  | _, _ => none

/-- The `WWCAssessment(...)` constructed at the top of `assess` (with
`rating_justification` reset to the empty list). -/
def initialAssessment (e : ExtractedData) (u : UserJudgments) :
    WWCAssessment :=
  { chosen_attrition_boundary := parseBoundary u,
    adjustment_strategy_is_valid := u.adjustment_strategy_is_valid,
    randomization_documented := resolvedRandomization e u,
    is_rct := pyUpper e.methodology == "RCT",
    paper_id := e.paper_id,
    paper_title := e.paper_title,
    rating_justification := [] }

/-- Steps 2 and 3 of `assess`: attrition rates and the high-attrition
classification (with the data-incompleteness warning when either rate is
null). -/
def withAttrition (e : ExtractedData) (a : WWCAssessment) : WWCAssessment :=
  let a1 := { a with
    overall_attrition := computeOverallAttrition e,
    differential_attrition := computeDifferentialAttrition e }
  match a1.overall_attrition, a1.differential_attrition with
  | some ov, some df =>
      { a1 with
        is_high_attrition :=
          some (!(is_low_attrition ov df a1.chosen_attrition_boundary)) }
  | _, _ =>
      { a1 with
        is_high_attrition := none,
        rating_justification :=
          a1.rating_justification ++ [.attritionIncompleteWarning] }

/-- Step 4 condition: baseline equivalence is required for non-RCTs and
for high-attrition RCTs. -/
def requiresBaselineCheck (a : WWCAssessment) : Bool :=
  !a.is_rct || a.is_high_attrition == some true

/-- Step 4 of `assess`. Returns the updated assessment plus a flag that is
`true` exactly when the Python code hits an early `return` inside the
gate. -/
def applyBaselineGate (sq : ℚ → ℚ) (e : ExtractedData)
    (a : WWCAssessment) : WWCAssessment × Bool :=
  if requiresBaselineCheck a then
    match e.baseline_mean_treatment, e.baseline_mean_control,
          e.baseline_sd_treatment, e.baseline_sd_control with
    | some tm, some cm, some tsd, some csd =>
        let br := calculate_baseline_equivalence sq tm cm tsd csd
        let a1 := { a with baseline_effect_size := some br.effect_size }
        match br.status with
        | .not_equivalent =>
            ({ a1 with
               final_rating := .does_not_meet,
               rating_justification :=
                 a1.rating_justification ++ [.baselineMessage br.message] },
             true)
        | .adjustable =>
            if a1.adjustment_strategy_is_valid ≠ some true then
              ({ a1 with
                 final_rating := .does_not_meet,
                 rating_justification :=
                   a1.rating_justification ++
                     [.baselineAdjustmentNotConfirmed br.message] },
               true)
            else
              ({ a1 with
                 baseline_equivalence_satisfied := some true,
                 rating_justification :=
                   a1.rating_justification ++
                     [.baselineAdjustmentConfirmed br.message] },
               false)
        | .equivalent =>
            ({ a1 with
               baseline_equivalence_satisfied := some true,
               rating_justification :=
                 a1.rating_justification ++ [.baselineMessage br.message] },
             false)
    | _, _, _, _ =>
        ({ a with
           rating_justification :=
             a.rating_justification ++ [.baselineIncompleteWarning] },
         false)
  else (a, false)

/-- Step 5 of `assess`: the final-rating branch on `is_high_attrition`
and `baseline_equivalence_satisfied`. -/
def finalRatingStep (a : WWCAssessment) : WWCAssessment :=
  match a.is_high_attrition with
  | some false =>
      { a with
        final_rating := .meets_without_reservations,
        rating_justification := a.rating_justification ++
          [.lowAttrition a.overall_attrition a.differential_attrition] }
  | some true =>
      if a.baseline_equivalence_satisfied = some true then
        { a with
          final_rating := .meets_with_reservations,
          rating_justification := a.rating_justification ++
            [.highAttritionEquivalenceSatisfied a.overall_attrition
               a.differential_attrition] }
      else
        { a with
          final_rating := .does_not_meet,
          rating_justification := a.rating_justification ++
            [.highAttritionNotSatisfied a.overall_attrition
               a.differential_attrition] }
  | none =>
      { a with
        final_rating := .does_not_meet,
        rating_justification :=
          a.rating_justification ++ [.insufficientData] }

/-- `WWCQualityAssessor.assess`: the full sequential gate chain. Early
`return`s are the `true`-flagged results of the gates. -/
def assess (sq : ℚ → ℚ) (e : ExtractedData) (u : UserJudgments) :
    WWCAssessment :=
  let a0 := initialAssessment e u
  if a0.randomization_documented = some false then
    { a0 with
      final_rating := .does_not_meet,
      rating_justification := [.randomizationNotDocumented] }
  else
    let p := applyBaselineGate sq e (withAttrition e a0)
    if p.2 then p.1 else finalRatingStep p.1

/-- The attrition rule exactly as claim C3 words it: overall above 0.40
always fails; otherwise the differential threshold paired with the
smallest overall threshold (scanned ascending) that the overall rate
satisfies decides. -/
def claimLowAttrition (overall differential : ℚ)
    (b : AttritionBoundary) : Bool :=
  if overall > 40/100 then false
  else if overall ≤ 10/100 then
    decide (differential ≤ (match b with | .cautious => 5/100 | .optimistic => 7/100))
  else if overall ≤ 20/100 then
    decide (differential ≤ (match b with | .cautious => 3/100 | .optimistic => 5/100))
  else if overall ≤ 30/100 then
    decide (differential ≤ (match b with | .cautious => 1/100 | .optimistic => 3/100))
  else if overall ≤ 40/100 then
    decide (differential ≤ (match b with | .cautious => 0 | .optimistic => 1/100))
  else false

/-- Usable sample sizes for the direct attrition formula: both values
present and Python-truthy (nonzero), with a positive baseline count. -/
def usableSampleSizes (e : ExtractedData) : Prop :=
  ∃ b en, e.baseline_n = some b ∧ e.endline_n = some en ∧
    b ≠ 0 ∧ en ≠ 0 ∧ 0 < b

/-- Placeholder square root for assessments that never reach the baseline
computation. -/
def sqZero : ℚ → ℚ := fun _ => 0

/-- Square root stub used in concrete baseline-equivalence witnesses. -/
def sqOne : ℚ → ℚ := fun _ => 1

/-- Concrete extracted data: a documented RCT with low attrition. -/
def e2W : ExtractedData :=
  { baseline_n := some 100, endline_n := some 95,
    treatment_attrition := some (4/100), control_attrition := some (6/100),
    methodology := "RCT", randomization_documented := some true }

/-- Empty user judgments. -/
def uEmpty : UserJudgments := {}

/-- Concrete extracted data with a truthy baseline count but endline
count zero: Python truthiness skips the direct attrition ratio here. -/
def e6C : ExtractedData :=
  { baseline_n := some 100, endline_n := some 0,
    treatment_attrition := some (1/2), control_attrition := some (1/2),
    methodology := "RCT" }

/-- Concrete extracted data with usable sample sizes only. -/
def e6W : ExtractedData := { baseline_n := some 100, endline_n := some 95 }

/-- Concrete extracted data with a full set of baseline means and SDs. -/
def e4W : ExtractedData :=
  { baseline_mean_treatment := some 0, baseline_mean_control := some 1,
    baseline_sd_treatment := some 1, baseline_sd_control := some 1 }

/-- An assessment state requiring the baseline gate (not an RCT). -/
def a4W : WWCAssessment := { is_rct := false }

end WWC
namespace MetaAnalysis

/-- An input study record for `perform_random_effects_meta_analysis`
(the dict with keys `effect_size`, `std_error`, optional `study_label`
and `paper_id`). -/
structure Study where
  effect_size : ℚ
  std_error : ℚ
  study_label : Option String := none
  paper_id : Option Nat := none
deriving DecidableEq

/-- Abstraction of the irrational numeric primitives supplied by
numpy/scipy/statsmodels: square root, the two-sided 95 percent t critical
value, t / normal / chi-square CDFs, and the 2x2 matrix condition number.
Theorems assume only the mathematical facts they need about these. -/
structure Kernel where
  sqrt : ℚ → ℚ
  tCrit : ℕ → ℚ
  tCdf : ℚ → ℕ → ℚ
  normCdf : ℚ → ℚ
  chi2Cdf : ℚ → ℕ → ℚ
  cond2x2 : ℚ → ℚ → ℚ → ℚ → ℚ

/-- Fixed-effect inverse-variance weights `w_i = 1/se_i^2` over the
(effect, std-error) pairs. -/
def fixedWeights (data : List (ℚ × ℚ)) : List ℚ :=
  data.map (fun p => 1 / p.2 ^ 2)

def sumFixedWeights (data : List (ℚ × ℚ)) : ℚ :=
  (fixedWeights data).sum

/-- Fixed-effect pooled mean. -/
def meanEffectFE (data : List (ℚ × ℚ)) : ℚ :=
  ((data.map (fun p => (1 / p.2 ^ 2) * p.1)).sum) / sumFixedWeights data

/-- Cochran Q statistic. -/
def qStatistic (data : List (ℚ × ℚ)) : ℚ :=
  (data.map (fun p => (1 / p.2 ^ 2) * (p.1 - meanEffectFE data) ^ 2)).sum

/-- DerSimonian-Laird denominator `sum(w) - sum(w^2)/sum(w)`. -/
def dlDenominator (data : List (ℚ × ℚ)) : ℚ :=
  sumFixedWeights data -
    ((data.map (fun p => (1 / p.2 ^ 2) ^ 2)).sum) / sumFixedWeights data

/-- DerSimonian-Laird between-study variance, clamped at 0. -/
def tau2DL (data : List (ℚ × ℚ)) : ℚ :=
  max 0 ((qStatistic data - ((data.length : ℚ) - 1)) / dlDenominator data)

/-- Random-effects weights `1/(se_i^2 + tau2)`. -/
def reWeights (data : List (ℚ × ℚ)) : List ℚ :=
  data.map (fun p => 1 / (p.2 ^ 2 + tau2DL data))

def sumReWeights (data : List (ℚ × ℚ)) : ℚ :=
  (reWeights data).sum

/-- Random-effects pooled mean. -/
def meanEffectRE (data : List (ℚ × ℚ)) : ℚ :=
  ((data.map (fun p => (1 / (p.2 ^ 2 + tau2DL data)) * p.1)).sum) /
    sumReWeights data

/-- Variance of the random-effects pooled mean, `1/sum(w_re)`. -/
def varianceRE (data : List (ℚ × ℚ)) : ℚ :=
  1 / sumReWeights data

/-- Raw I-squared on the percent scale, `max(0, 100 (Q - df) / Q)`. -/
def i2Raw (data : List (ℚ × ℚ)) : ℚ :=
  max 0 (100 * (qStatistic data - ((data.length : ℚ) - 1)) / qStatistic data)

/-- The fields of the statsmodels `CombineResults` object the repository
reads. -/
structure CombineResult where
  mean_effect_re : ℚ
  tau2 : ℚ
  q : ℚ
  i2 : ℚ
  sd_eff_w_re : ℚ
  ci_re_lower : ℚ
  ci_re_upper : ℚ
deriving DecidableEq

/-- Modelled from the spec: `statsmodels.stats.meta_analysis.combine_effects`
with `method_re="DL"` and `use_t=True` is an external library the
repository calls but does not contain; its outputs are modelled by the
DerSimonian-Laird formulas of spec section 4.1 (exact rational arithmetic,
so the NaN cases the repository guards against do not arise here). -/
def combine_effects (k : Kernel) (data : List (ℚ × ℚ)) : CombineResult :=
  let sd := k.sqrt (varianceRE data)
  let tc := k.tCrit (data.length - 1)
  { mean_effect_re := meanEffectRE data,
    tau2 := tau2DL data,
    q := qStatistic data,
    i2 := i2Raw data,
    sd_eff_w_re := sd,
    ci_re_lower := meanEffectRE data - tc * sd,
    ci_re_upper := meanEffectRE data + tc * sd }

/-- A per-study entry of the pooled result. -/
structure PooledStudy where
  paper_id : Option Nat
  study_label : String
  effect_size : ℚ
  std_error : ℚ
  weight : ℚ
  ci_lower : ℚ
  ci_upper : ℚ
deriving DecidableEq

/-- The dict returned by `perform_random_effects_meta_analysis`. -/
structure PooledResult where
  pooled_effect : ℚ
  ci_lower : ℚ
  ci_upper : ℚ
  p_value : ℚ
  tau_squared : ℚ
  i_squared : ℚ
  q_statistic : ℚ
  q_p_value : ℚ
  n_studies : ℕ
  studies : List PooledStudy
deriving DecidableEq

/-- The two error kinds raised by the analyzer: `ValueError` for invalid
input (the ValidationError of the spec) and the `RuntimeError` wrapper for
computation failures. -/
inductive PoolError
  | validationError (msg : String)
  | computationError (msg : String)
deriving DecidableEq

/-- The `ci_lower` fallback chain (meta_analyzer lines 103-109): `none`
models a NaN float, and a present value of `0` is falsy in Python. -/
def ciLowerFrom (ciVal : Option ℚ) (pooled : ℚ) (sd : Option ℚ) : ℚ :=
  match ciVal with
  | some c => c
  | none =>
      match sd with
      | some s => if s ≠ 0 then pooled - 196/100 * s else pooled - 1/2
      | none => pooled - 1/2

/-- The `ci_upper` fallback chain (meta_analyzer lines 110-116). -/
def ciUpperFrom (ciVal : Option ℚ) (pooled : ℚ) (sd : Option ℚ) : ℚ :=
  match ciVal with
  | some c => c
  | none =>
      match sd with
      | some s => if s ≠ 0 then pooled + 196/100 * s else pooled + 1/2
      | none => pooled + 1/2

/-- Default study label, Python `f"Study {i + 1}"`. -/
def defaultLabel (i : ℕ) : String := "Study " ++ toString (i + 1)

/-- The (effect_size, std_error) array pair extracted from the studies. -/
def studyData (studies : List Study) : List (ℚ × ℚ) :=
  studies.map (fun s => (s.effect_size, s.std_error))

/-- Body of `perform_random_effects_meta_analysis` after validation (the
`try` block; in exact arithmetic no exception paths are reachable, and
the NaN/Inf replacement clamps are identities). -/
def poolUnchecked (k : Kernel) (studies : List Study) : PooledResult :=
  let result := combine_effects k (studyData studies)
  let i_squared := if result.i2 < 0 then 0 else result.i2
  let weightsRaw := studies.map (fun s => 1 / (s.std_error ^ 2 + result.tau2))
  let wSum := weightsRaw.sum
  let study_results := (studies.zip weightsRaw).enum.map (fun ip =>
    { paper_id := ip.2.1.paper_id,
      study_label := ip.2.1.study_label.getD (defaultLabel ip.1),
      effect_size := ip.2.1.effect_size,
      std_error := ip.2.1.std_error,
      weight := ip.2.2 / wSum,
      ci_lower := ip.2.1.effect_size - 196/100 * ip.2.1.std_error,
      ci_upper := ip.2.1.effect_size + 196/100 * ip.2.1.std_error })
  let pooled_effect := result.mean_effect_re
  let ci_lower := ciLowerFrom (some result.ci_re_lower) pooled_effect
    (some result.sd_eff_w_re)
  let ci_upper := ciUpperFrom (some result.ci_re_upper) pooled_effect
    (some result.sd_eff_w_re)
  let dfq : ℕ := studies.length - 1
  let p_value :=
    if result.sd_eff_w_re > 0 then
      2 * (1 - k.tCdf |pooled_effect / result.sd_eff_w_re| dfq)
    else
      let approx_se := (ci_upper - ci_lower) / (2 * (196/100))
      if approx_se > 0 then 2 * (1 - k.normCdf |pooled_effect / approx_se|)
      else 1
  { pooled_effect := pooled_effect,
    ci_lower := ci_lower,
    ci_upper := ci_upper,
    p_value := p_value,
    tau_squared := result.tau2,
    i_squared := i_squared,
    q_statistic := result.q,
    q_p_value := 1 - k.chi2Cdf result.q dfq,
    n_studies := studies.length,
    studies := study_results }

/-- `MetaAnalyzer.perform_random_effects_meta_analysis`: the two input
validations followed by the computation. -/
def perform_random_effects_meta_analysis (k : Kernel) (studies : List Study) :
    Except PoolError PooledResult :=
  if studies.length < 2 then
    .error (.validationError ("Meta-analysis requires at least 2 studies"))
  else if (studies.map (fun s => s.std_error)).any (fun s => decide (s ≤ 0)) then
    .error (.validationError ("Standard errors must be positive"))
  else
    .ok (poolUnchecked k studies)

end MetaAnalysis

namespace MetaAnalysis

/-- Interpretation strings of `_calculate_subgroup_comparison`; the two
formatted messages carry their numeric payloads (the Python string
interpolates them with `%.3f` / `%.4f` formatting). -/
inductive ComparisonInterp
  | atLeastTwoRequired
  | significant (q p : ℚ)
  | notSignificant (q p : ℚ)
  | couldNotCalculate
deriving DecidableEq

/-- The dict returned by `_calculate_subgroup_comparison`. -/
structure SubgroupComparison where
  q_between : Option ℚ
  df : Option ℕ
  p_value : Option ℚ
  interpretation : ComparisonInterp
deriving DecidableEq

/-- A subgroup standard error backed out of the pooled CI width,
`(ci_upper - ci_lower) / (2 * 1.96)`. -/
def subgroupSE (g : PooledResult) : ℚ :=
  (g.ci_upper - g.ci_lower) / (2 * (196/100))

/-- The Q-between accumulation loop: groups whose backed-out SE is not
positive are skipped. -/
def qBetween (subgroup_results : List (String × PooledResult))
    (overall_effect : ℚ) : ℚ :=
  (subgroup_results.map (fun g =>
    if subgroupSE g.2 > 0 then
      (1 / subgroupSE g.2 ^ 2) * (g.2.pooled_effect - overall_effect) ^ 2
    else 0)).sum

/-- `MetaAnalyzer._calculate_subgroup_comparison`. -/
def calculate_subgroup_comparison (k : Kernel)
    (subgroup_results : List (String × PooledResult))
    (overall : PooledResult) : SubgroupComparison :=
  if subgroup_results.length < 2 then
    { q_between := none, df := none, p_value := none,
      interpretation := .atLeastTwoRequired }
  else
    let q := qBetween subgroup_results overall.pooled_effect
    let df := subgroup_results.length - 1
    let pi :=
      if 0 < df ∧ 0 < q then
        let p := 1 - k.chi2Cdf q df
        ((some p : Option ℚ),
          if p < 5/100 then ComparisonInterp.significant q p
          else ComparisonInterp.notSignificant q p)
      else ((none : Option ℚ), ComparisonInterp.couldNotCalculate)
    { q_between := if 0 < q then some q else none, df := some df,
      p_value := pi.1, interpretation := pi.2 }

/-- The dict returned by `perform_eggers_test`. -/
structure EggerResult where
  intercept : Option ℚ
  intercept_se : Option ℚ
  intercept_pvalue : Option ℚ
  interpretation : String
deriving DecidableEq

/-- The `except` handler of `perform_eggers_test`: null fields plus an
explanatory message (the numeric payload the Python message interpolates
is elided). -/
def eggerFailure (msg : String) : EggerResult :=
  { intercept := none, intercept_se := none, intercept_pvalue := none,
    interpretation := "Egger\x27s test failed: " ++ msg }

/-- Entries of the weighted normal equations `X W X` and `X W y` for the
design matrix `[1, 1/se]` with weights `1/se^2`. -/
def eggerSumW (data : List (ℚ × ℚ)) : ℚ :=
  (data.map (fun p => 1 / p.2 ^ 2)).sum

def eggerSumWP (data : List (ℚ × ℚ)) : ℚ :=
  (data.map (fun p => (1 / p.2 ^ 2) * (1 / p.2))).sum

def eggerSumWPP (data : List (ℚ × ℚ)) : ℚ :=
  (data.map (fun p => (1 / p.2 ^ 2) * (1 / p.2) ^ 2)).sum

def eggerSumWY (data : List (ℚ × ℚ)) : ℚ :=
  (data.map (fun p => (1 / p.2 ^ 2) * p.1)).sum

def eggerSumWPY (data : List (ℚ × ℚ)) : ℚ :=
  (data.map (fun p => (1 / p.2 ^ 2) * (1 / p.2) * p.1)).sum

/-- Determinant of the 2x2 matrix `X W X`. -/
def eggerDet (data : List (ℚ × ℚ)) : ℚ :=
  eggerSumW data * eggerSumWPP data - eggerSumWP data * eggerSumWP data

/-- WLS intercept (first entry of the solution of the normal equations). -/
def eggerIntercept (data : List (ℚ × ℚ)) : ℚ :=
  (eggerSumWPP data * eggerSumWY data - eggerSumWP data * eggerSumWPY data) /
    eggerDet data

/-- WLS slope (second entry of the solution). -/
def eggerSlope (data : List (ℚ × ℚ)) : ℚ :=
  (eggerSumW data * eggerSumWPY data - eggerSumWP data * eggerSumWY data) /
    eggerDet data

/-- Weighted mean squared error of the regression residuals, over n - 2
degrees of freedom. -/
def eggerMSE (data : List (ℚ × ℚ)) : ℚ :=
  ((data.map (fun p => (1 / p.2 ^ 2) *
      (p.1 - (eggerIntercept data + eggerSlope data * (1 / p.2))) ^ 2)).sum) /
    ((data.length : ℚ) - 2)

/-- Intercept variance `mse * inv(XWX)[0,0]`. -/
def eggerVarIntercept (data : List (ℚ × ℚ)) : ℚ :=
  eggerMSE data * (eggerSumWPP data / eggerDet data)

/-- `MetaAnalyzer.perform_eggers_test` over (effect_size, std_error)
pairs. Every numeric failure path (ill-conditioned matrix via the
condition-number guard, singular solve, non-positive intercept variance)
is caught and reported as a null-field result, never an exception. -/
def perform_eggers_test (k : Kernel) (data : List (ℚ × ℚ)) : EggerResult :=
  if data.length < 3 then
    { intercept := none, intercept_se := none, intercept_pvalue := none,
      interpretation := "Egger\x27s test requires at least 3 studies" }
  else if k.cond2x2 (eggerSumW data) (eggerSumWP data) (eggerSumWP data)
      (eggerSumWPP data) > 10 ^ 12 then
    eggerFailure ("Matrix is ill-conditioned")
  else if eggerDet data = 0 then
    eggerFailure ("singular matrix")
  else if eggerVarIntercept data ≤ 0 then
    eggerFailure ("Invalid variance for intercept")
  else
    let se := k.sqrt (eggerVarIntercept data)
    let t := eggerIntercept data / se
    let p := 2 * (1 - k.tCdf |t| (data.length - 2))
    { intercept := some (eggerIntercept data),
      intercept_se := some se,
      intercept_pvalue := some p,
      interpretation :=
        if p < 5/100 then ("Evidence of publication bias (p < 0.05)")
        else ("No significant evidence of publication bias (p >= 0.05)") }

/-- A leave-one-out entry of the sensitivity analysis. -/
structure LeaveOneOutEntry where
  removed_study : String
  removed_paper_id : Option Nat
  pooled_effect : ℚ
  ci_lower : ℚ
  ci_upper : ℚ
  difference_from_overall : ℚ
deriving DecidableEq

/-- An influence-diagnostics entry of the sensitivity analysis. -/
structure InfluenceEntry where
  study_label : String
  paper_id : Option Nat
  influence_score : ℚ
  weight : ℚ
  effect_size : ℚ
deriving DecidableEq

/-- The dict returned by `perform_sensitivity_analysis`. -/
structure SensitivityResult where
  overall_effect : ℚ
  leave_one_out : List LeaveOneOutEntry
  influence_diagnostics : List InfluenceEntry
  n_studies : ℕ
deriving DecidableEq

/-- The influence entries in study order, before sorting: normalized
random-effects weight (with the overall tau-squared) times the absolute
deviation from the weighted mean effect. -/
def influenceUnsorted (studies : List Study) (tau2 : ℚ) : List InfluenceEntry :=
  let weightsRaw := studies.map (fun s => 1 / (s.std_error ^ 2 + tau2))
  let wSum := weightsRaw.sum
  let mean :=
    ((studies.map (fun s => (1 / (s.std_error ^ 2 + tau2)) *
        s.effect_size)).sum) / wSum
  studies.enum.map (fun ip =>
    { study_label := ip.2.study_label.getD (defaultLabel ip.1),
      paper_id := ip.2.paper_id,
      influence_score :=
        (1 / (ip.2.std_error ^ 2 + tau2)) / wSum * |ip.2.effect_size - mean|,
      weight := (1 / (ip.2.std_error ^ 2 + tau2)) / wSum,
      effect_size := ip.2.effect_size })

/-- The leave-one-out loop: each re-pooling that fails is skipped with a
logged warning, as is the (unreachable) case of fewer than two remaining
studies. -/
def looEntries (k : Kernel) (studies : List Study) (overall_effect : ℚ) :
    List LeaveOneOutEntry :=
  studies.enum.filterMap (fun ip =>
    let rest := studies.eraseIdx ip.1
    if 2 ≤ rest.length then
      match perform_random_effects_meta_analysis k rest with
      | .ok r =>
          some { removed_study := ip.2.study_label.getD (defaultLabel ip.1),
                 removed_paper_id := ip.2.paper_id,
                 pooled_effect := r.pooled_effect,
                 ci_lower := r.ci_lower,
                 ci_upper := r.ci_upper,
                 difference_from_overall := r.pooled_effect - overall_effect }
      | .error _ => none
    else none)

/-- Descending comparison on influence scores, for the stable
`list.sort(key=..., reverse=True)`. -/
def influenceLe (a b : InfluenceEntry) : Bool :=
  decide (b.influence_score ≤ a.influence_score)

/-- `MetaAnalyzer.perform_sensitivity_analysis`. An exception from the
overall pooling propagates to the caller (it is not caught there). -/
def perform_sensitivity_analysis (k : Kernel) (studies : List Study) :
    Except PoolError SensitivityResult :=
  if studies.length < 3 then
    .error (.validationError ("Sensitivity analysis requires at least 3 studies"))
  else
    match perform_random_effects_meta_analysis k studies with
    | .error err => .error err
    | .ok overall =>
        .ok { overall_effect := overall.pooled_effect,
              leave_one_out := looEntries k studies overall.pooled_effect,
              influence_diagnostics :=
                (influenceUnsorted studies overall.tau_squared).mergeSort
                  influenceLe,
              n_studies := studies.length }

end MetaAnalysis

namespace MetaAnalysis

/-- The Q-between formula exactly as claim C9 words it: every qualifying
group contributes `(1/SE^2) (effect - overall)^2`, with no skip guard. -/
def claimQBetween (subgroup_results : List (String × PooledResult))
    (overall_effect : ℚ) : ℚ :=
  (subgroup_results.map (fun g =>
    (1 / subgroupSE g.2 ^ 2) * (g.2.pooled_effect - overall_effect) ^ 2)).sum

/-- The leave-one-out entry recorded for position `ip.1` (study `ip.2`)
when the re-pooling over the remaining studies succeeds. -/
def looEntry (k : Kernel) (studies : List Study) (overall_effect : ℚ)
    (ip : ℕ × Study) : LeaveOneOutEntry :=
  { removed_study := ip.2.study_label.getD (defaultLabel ip.1),
    removed_paper_id := ip.2.paper_id,
    pooled_effect := (poolUnchecked k (studies.eraseIdx ip.1)).pooled_effect,
    ci_lower := (poolUnchecked k (studies.eraseIdx ip.1)).ci_lower,
    ci_upper := (poolUnchecked k (studies.eraseIdx ip.1)).ci_upper,
    difference_from_overall :=
      (poolUnchecked k (studies.eraseIdx ip.1)).pooled_effect -
        overall_effect }

/-- A concrete kernel for witnesses: any functions satisfying the
mathematical side conditions will do. -/
def kW : Kernel :=
  { sqrt := fun _ => 0, tCrit := fun _ => 2, tCdf := fun _ _ => 1/2,
    normCdf := fun _ => 1/2, chi2Cdf := fun _ _ => 0,
    cond2x2 := fun _ _ _ _ => 1 }

/-- A single concrete study. -/
def stA : Study := { effect_size := 1/2, std_error := 3/20 }

/-- Two concrete valid studies. -/
def studiesW : List Study :=
  [{ effect_size := 1/2, std_error := 3/20 },
   { effect_size := 3/10, std_error := 3/25 }]

/-- Three concrete valid studies. -/
def studiesS3 : List Study :=
  [{ effect_size := 1/2, std_error := 1 },
   { effect_size := 3/10, std_error := 1 },
   { effect_size := 1/5, std_error := 1 }]

/-- Two concrete (effect, std-error) pairs. -/
def dataE2 : List (ℚ × ℚ) := [(0, 1), (1, 1)]

/-- A concrete pooled result whose effect coincides with the overall
effect, making the Q-between accumulation zero. -/
def cxPR : PooledResult :=
  { pooled_effect := 0, ci_lower := -1, ci_upper := 1, p_value := 1,
    tau_squared := 0, i_squared := 0, q_statistic := 0, q_p_value := 1,
    n_studies := 2, studies := [] }

end MetaAnalysis

namespace WWC

/-- Fields of the assessment that the baseline gate never modifies, and
preservation of the justification trail (the gate only appends). -/
lemma applyBaselineGate_preserves (sq : ℚ → ℚ) (e : ExtractedData)
    (a : WWCAssessment) :
    ((applyBaselineGate sq e a).1).overall_attrition = a.overall_attrition ∧
    ((applyBaselineGate sq e a).1).differential_attrition =
      a.differential_attrition ∧
    ((applyBaselineGate sq e a).1).is_high_attrition = a.is_high_attrition ∧
    (∀ j ∈ a.rating_justification,
      j ∈ ((applyBaselineGate sq e a).1).rating_justification) := by
  by_cases hr : requiresBaselineCheck a
  · rcases h1 : e.baseline_mean_treatment with _ | tm
    · simp [applyBaselineGate, hr, h1]
      exact fun j hj => Or.inl hj
    · rcases h2 : e.baseline_mean_control with _ | cm
      · simp [applyBaselineGate, hr, h1, h2]
        exact fun j hj => Or.inl hj
      · rcases h3 : e.baseline_sd_treatment with _ | tsd
        · simp [applyBaselineGate, hr, h1, h2, h3]
          exact fun j hj => Or.inl hj
        · rcases h4 : e.baseline_sd_control with _ | csd
          · simp [applyBaselineGate, hr, h1, h2, h3, h4]
            exact fun j hj => Or.inl hj
          · rcases hst : (calculate_baseline_equivalence sq tm cm tsd csd).status <;>
              by_cases hadj : a.adjustment_strategy_is_valid = some true <;>
                (simp [applyBaselineGate, hr, h1, h2, h3, h4, hst, hadj] <;>
                  try exact fun j hj => Or.inl hj)
  · simp [applyBaselineGate, hr]

/-- Fields of the assessment that the final-rating step never modifies,
and preservation of the justification trail. -/
lemma finalRatingStep_preserves (a : WWCAssessment) :
    (finalRatingStep a).overall_attrition = a.overall_attrition ∧
    (finalRatingStep a).differential_attrition = a.differential_attrition ∧
    (finalRatingStep a).is_high_attrition = a.is_high_attrition ∧
    (finalRatingStep a).baseline_equivalence_satisfied =
      a.baseline_equivalence_satisfied ∧
    (∀ j ∈ a.rating_justification,
      j ∈ (finalRatingStep a).rating_justification) := by
  rcases h : a.is_high_attrition with _ | b
  · simp [finalRatingStep, h]
    exact fun j hj => Or.inl hj
  · cases b
    · simp [finalRatingStep, h]
      exact fun j hj => Or.inl hj
    · by_cases hb : a.baseline_equivalence_satisfied = some true <;>
        (simp [finalRatingStep, h, hb] <;> try exact fun j hj => Or.inl hj)

/-- Attrition fields produced by steps 2 and 3 of `assess`. -/
lemma withAttrition_fields (e : ExtractedData) (a : WWCAssessment) :
    (withAttrition e a).overall_attrition = computeOverallAttrition e ∧
    (withAttrition e a).differential_attrition =
      computeDifferentialAttrition e ∧
    (∀ ov df, computeOverallAttrition e = some ov →
      computeDifferentialAttrition e = some df →
      (withAttrition e a).is_high_attrition =
        some (!(is_low_attrition ov df a.chosen_attrition_boundary))) ∧
    (computeOverallAttrition e = none ∨ computeDifferentialAttrition e = none →
      (withAttrition e a).is_high_attrition = none ∧
      Justification.attritionIncompleteWarning ∈
        (withAttrition e a).rating_justification) ∧
    (∀ j ∈ a.rating_justification,
      j ∈ (withAttrition e a).rating_justification) := by
  rcases ho : computeOverallAttrition e with _ | ov <;>
    rcases hd : computeDifferentialAttrition e with _ | df <;>
      (simp [withAttrition, ho, hd] <;> try exact fun j hj => Or.inl hj)

/-- `assess` after a passing randomization gate is the baseline gate
followed (absent an early return) by the final-rating step. -/
lemma assess_eq (sq : ℚ → ℚ) (e : ExtractedData) (u : UserJudgments)
    (h1 : resolvedRandomization e u ≠ some false) :
    assess sq e u =
      (if (applyBaselineGate sq e (withAttrition e (initialAssessment e u))).2
       then (applyBaselineGate sq e (withAttrition e (initialAssessment e u))).1
       else
         finalRatingStep
           (applyBaselineGate sq e
             (withAttrition e (initialAssessment e u))).1) := by
  unfold assess
  have h1' : ¬((initialAssessment e u).randomization_documented = some false) := by
    simpa [initialAssessment] using h1
  rw [if_neg h1']

/-- When the baseline gate hits an early return, the rating it fixed is
does-not-meet. -/
lemma applyBaselineGate_terminal (sq : ℚ → ℚ) (e : ExtractedData)
    (a : WWCAssessment) (h : (applyBaselineGate sq e a).2 = true) :
    ((applyBaselineGate sq e a).1).final_rating = .does_not_meet := by
  by_cases hr : requiresBaselineCheck a
  · rcases h1 : e.baseline_mean_treatment with _ | tm
    · simp [applyBaselineGate, hr, h1] at h
    · rcases h2 : e.baseline_mean_control with _ | cm
      · simp [applyBaselineGate, hr, h1, h2] at h
      · rcases h3 : e.baseline_sd_treatment with _ | tsd
        · simp [applyBaselineGate, hr, h1, h2, h3] at h
        · rcases h4 : e.baseline_sd_control with _ | csd
          · simp [applyBaselineGate, hr, h1, h2, h3, h4] at h
          · rcases hst : (calculate_baseline_equivalence sq tm cm tsd csd).status <;>
              by_cases hadj : a.adjustment_strategy_is_valid = some true <;>
                simp_all [applyBaselineGate, hr, h1, h2, h3, h4, hst, hadj]
  · simp [applyBaselineGate, hr] at h

lemma computeOverallAttrition_ratio (e : ExtractedData) (b en : ℚ)
    (hb : e.baseline_n = some b) (hen : e.endline_n = some en)
    (h0 : b ≠ 0) (h1 : en ≠ 0) (h2 : 0 < b) :
    computeOverallAttrition e = some ((b - en) / b) := by
  simp [computeOverallAttrition, hb, hen, h0, h1, h2]

lemma computeOverallAttrition_mean (e : ExtractedData) (t c : ℚ)
    (hns : ¬ usableSampleSizes e)
    (ht : e.treatment_attrition = some t)
    (hc : e.control_attrition = some c) :
    computeOverallAttrition e = some ((t + c) / 2) := by
  unfold computeOverallAttrition
  rcases hb : e.baseline_n with _ | b <;> rcases hen : e.endline_n with _ | en <;>
    simp [ht, hc]
  intro hb0 hen0 hbpos
  exact absurd ⟨b, en, hb, hen, hb0, hen0, hbpos⟩ hns

lemma computeOverallAttrition_none (e : ExtractedData)
    (hns : ¬ usableSampleSizes e)
    (h : e.treatment_attrition = none ∨ e.control_attrition = none) :
    computeOverallAttrition e = none := by
  have hfb : (match e.treatment_attrition, e.control_attrition with
      | some t, some c => some ((t + c) / 2)
      | _, _ => (none : Option ℚ)) = none := by
    rcases h with h | h
    · rw [h]
    · rcases ht : e.treatment_attrition with _ | t
      · rfl
      · rw [h]
  unfold computeOverallAttrition
  rcases hb : e.baseline_n with _ | b <;> rcases hen : e.endline_n with _ | en <;>
    simp only [hb, hen]
  · exact hfb
  · exact hfb
  · exact hfb
  · have hcond : ¬(b ≠ 0 ∧ en ≠ 0 ∧ 0 < b) := by
      rintro ⟨c1, c2, c3⟩
      exact hns ⟨b, en, hb, hen, c1, c2, c3⟩
    rw [if_neg hcond]
    exact hfb

lemma assess_overall_eq (sq : ℚ → ℚ) (e : ExtractedData) (u : UserJudgments)
    (h1 : resolvedRandomization e u ≠ some false) :
    (assess sq e u).overall_attrition = computeOverallAttrition e := by
  rw [assess_eq sq e u h1]
  obtain ⟨po, -, -, -⟩ :=
    applyBaselineGate_preserves sq e (withAttrition e (initialAssessment e u))
  obtain ⟨fo, -, -, -, -⟩ :=
    finalRatingStep_preserves
      (applyBaselineGate sq e (withAttrition e (initialAssessment e u))).1
  obtain ⟨wo, -, -, -, -⟩ := withAttrition_fields e (initialAssessment e u)
  by_cases hp :
      (applyBaselineGate sq e (withAttrition e (initialAssessment e u))).2 <;>
    simp [hp, po, fo, wo]

lemma assess_mem (sq : ℚ → ℚ) (e : ExtractedData) (u : UserJudgments)
    (h1 : resolvedRandomization e u ≠ some false) (j : Justification)
    (hj : j ∈ (withAttrition e (initialAssessment e u)).rating_justification) :
    j ∈ (assess sq e u).rating_justification := by
  rw [assess_eq sq e u h1]
  obtain ⟨-, -, -, pm⟩ :=
    applyBaselineGate_preserves sq e (withAttrition e (initialAssessment e u))
  obtain ⟨-, -, -, -, fm⟩ :=
    finalRatingStep_preserves
      (applyBaselineGate sq e (withAttrition e (initialAssessment e u))).1
  by_cases hp :
      (applyBaselineGate sq e (withAttrition e (initialAssessment e u))).2 = true
  · rw [if_pos hp]
    exact pm j hj
  · rw [if_neg hp]
    exact fm j (pm j hj)

end WWC

namespace WWC

/-- C3: for every pair of non-null attrition rates and every boundary
choice, attrition is classified low iff the differential rate is at or
below the threshold paired with the smallest overall-attrition threshold
(scanned ascending) that the overall rate satisfies, per the cautious and
optimistic tables; overall above 0.40 is always high attrition. In
particular overall 0.08 with differential 0.04 under cautious is low, and
overall 0.45 is high under every boundary and differential. -/
theorem claim_C3_attrition_boundaries :
    (∀ (overall differential : ℚ) (b : AttritionBoundary),
        is_low_attrition overall differential b =
          claimLowAttrition overall differential b) ∧
    is_low_attrition (8/100) (4/100) .cautious = true ∧
    (∀ (differential : ℚ) (b : AttritionBoundary),
        is_low_attrition (45/100) differential b = false) := by
  refine ⟨?_,
    by norm_num [is_low_attrition, scanBoundaries, ATTRITION_BOUNDARIES], ?_⟩
  · intro o d b
    cases b <;>
      simp only [is_low_attrition, ATTRITION_BOUNDARIES, scanBoundaries,
        claimLowAttrition]
  · intro d b
    have h : (45:ℚ)/100 > 40/100 := by norm_num
    simp [is_low_attrition, h]

/-- C2: whenever the randomization gate and the baseline gate have not
already terminated the assessment, the final rating is: low attrition
gives meets-without-reservations; high attrition with baseline
equivalence satisfied gives meets-with-reservations; high attrition
without satisfied baseline equivalence gives does-not-meet; and an
indeterminate (null) attrition classification gives does-not-meet with
the insufficient-data justification. -/
theorem claim_C2_final_rating (sq : ℚ → ℚ) (e : ExtractedData)
    (u : UserJudgments)
    (h1 : resolvedRandomization e u ≠ some false)
    (h2 : (applyBaselineGate sq e (withAttrition e (initialAssessment e u))).2
            = false) :
    ((assess sq e u).is_high_attrition = some false →
      (assess sq e u).final_rating = .meets_without_reservations) ∧
    ((assess sq e u).is_high_attrition = some true →
      (assess sq e u).baseline_equivalence_satisfied = some true →
      (assess sq e u).final_rating = .meets_with_reservations) ∧
    ((assess sq e u).is_high_attrition = some true →
      (assess sq e u).baseline_equivalence_satisfied ≠ some true →
      (assess sq e u).final_rating = .does_not_meet) ∧
    ((assess sq e u).is_high_attrition = none →
      (assess sq e u).final_rating = .does_not_meet ∧
      Justification.insufficientData ∈ (assess sq e u).rating_justification) := by
  have ha := assess_eq sq e u h1
  rw [h2] at ha
  simp only [Bool.false_eq_true, if_false] at ha
  rw [ha]
  obtain ⟨-, -, ph, ps, -⟩ :=
    finalRatingStep_preserves
      (applyBaselineGate sq e (withAttrition e (initialAssessment e u))).1
  set b := (applyBaselineGate sq e (withAttrition e (initialAssessment e u))).1
  refine ⟨?_, ?_, ?_, ?_⟩
  · intro hk
    rw [ph] at hk
    simp [finalRatingStep, hk]
  · intro hk hs
    rw [ph] at hk
    rw [ps] at hs
    simp [finalRatingStep, hk, hs]
  · intro hk hs
    rw [ph] at hk
    rw [ps] at hs
    simp [finalRatingStep, hk, hs]
  · intro hk
    rw [ph] at hk
    simp [finalRatingStep, hk]

/-- Witness for C2 at a concrete documented RCT with low attrition: the
final rating is meets-without-reservations. -/
theorem claim_C2_final_rating_witness :
    (assess sqZero e2W uEmpty).final_rating = .meets_without_reservations := by
  have h1 : resolvedRandomization e2W uEmpty ≠ some false := by
    simp [resolvedRandomization, e2W, uEmpty]
  have h2 : (applyBaselineGate sqZero e2W (withAttrition e2W
      (initialAssessment e2W uEmpty))).2 = false := by
    norm_num [applyBaselineGate, requiresBaselineCheck, withAttrition,
      initialAssessment, computeOverallAttrition,
      computeDifferentialAttrition, parseBoundary, resolvedRandomization,
      pyUpper, is_low_attrition, scanBoundaries, ATTRITION_BOUNDARIES,
      e2W, uEmpty]
    split <;> rfl
  apply (claim_C2_final_rating sqZero e2W uEmpty h1 h2).1
  have ha := assess_eq sqZero e2W uEmpty h1
  rw [h2] at ha
  simp only [Bool.false_eq_true, if_false] at ha
  obtain ⟨-, -, ph, -, -⟩ :=
    finalRatingStep_preserves (applyBaselineGate sqZero e2W
      (withAttrition e2W (initialAssessment e2W uEmpty))).1
  obtain ⟨-, -, gh, -⟩ := applyBaselineGate_preserves sqZero e2W
    (withAttrition e2W (initialAssessment e2W uEmpty))
  obtain ⟨-, -, wh, -, -⟩ := withAttrition_fields e2W
    (initialAssessment e2W uEmpty)
  rw [ha, ph, gh,
    wh (1/20) (1/50) (by norm_num [computeOverallAttrition, e2W])
      (by norm_num [computeDifferentialAttrition, e2W])]
  have hb : (initialAssessment e2W uEmpty).chosen_attrition_boundary =
      .cautious := rfl
  rw [hb]
  norm_num [is_low_attrition, scanBoundaries, ATTRITION_BOUNDARIES]

end WWC

namespace WWC

/-- C4: with all four of treatment/control means and SDs supplied, the
baseline effect size is Cohen d with pooled SD sqrt of the mean of the
squared SDs (0 and status equivalent when the pooled SD is exactly 0);
status is equivalent iff the absolute effect is at most 0.05, adjustable
iff it is in (0.05, 0.25] (the gate then passes only when
adjustment_strategy_is_valid is exactly true, otherwise it terminates
with does-not-meet), and above 0.25 the gate terminates with
does-not-meet regardless of adjustment; a terminated gate fixes the
assessment result at does-not-meet. -/
theorem claim_C4_baseline_equivalence :
    (∀ (sq : ℚ → ℚ) (tm cm tsd csd : ℚ),
      (calculate_baseline_equivalence sq tm cm tsd csd).effect_size =
        (if sq ((tsd ^ 2 + csd ^ 2) / 2) = 0 then 0
         else (tm - cm) / sq ((tsd ^ 2 + csd ^ 2) / 2)) ∧
      ((calculate_baseline_equivalence sq tm cm tsd csd).status = .equivalent ↔
        |(calculate_baseline_equivalence sq tm cm tsd csd).effect_size| ≤
          5/100) ∧
      ((calculate_baseline_equivalence sq tm cm tsd csd).status = .adjustable ↔
        5/100 < |(calculate_baseline_equivalence sq tm cm tsd csd).effect_size| ∧
        |(calculate_baseline_equivalence sq tm cm tsd csd).effect_size| ≤
          25/100) ∧
      ((calculate_baseline_equivalence sq tm cm tsd csd).status =
          .not_equivalent ↔
        25/100 <
          |(calculate_baseline_equivalence sq tm cm tsd csd).effect_size|)) ∧
    (∀ (sq : ℚ → ℚ) (e : ExtractedData) (a : WWCAssessment) (tm cm tsd csd : ℚ),
      e.baseline_mean_treatment = some tm →
      e.baseline_mean_control = some cm →
      e.baseline_sd_treatment = some tsd →
      e.baseline_sd_control = some csd →
      requiresBaselineCheck a = true →
      ((calculate_baseline_equivalence sq tm cm tsd csd).status =
          .not_equivalent →
        (applyBaselineGate sq e a).2 = true ∧
        ((applyBaselineGate sq e a).1).final_rating = .does_not_meet) ∧
      ((calculate_baseline_equivalence sq tm cm tsd csd).status = .adjustable →
        a.adjustment_strategy_is_valid ≠ some true →
        (applyBaselineGate sq e a).2 = true ∧
        ((applyBaselineGate sq e a).1).final_rating = .does_not_meet) ∧
      ((calculate_baseline_equivalence sq tm cm tsd csd).status = .adjustable →
        a.adjustment_strategy_is_valid = some true →
        (applyBaselineGate sq e a).2 = false ∧
        ((applyBaselineGate sq e a).1).baseline_equivalence_satisfied =
          some true) ∧
      ((calculate_baseline_equivalence sq tm cm tsd csd).status = .equivalent →
        (applyBaselineGate sq e a).2 = false ∧
        ((applyBaselineGate sq e a).1).baseline_equivalence_satisfied =
          some true)) ∧
    (∀ (sq : ℚ → ℚ) (e : ExtractedData) (u : UserJudgments),
      resolvedRandomization e u ≠ some false →
      (applyBaselineGate sq e (withAttrition e (initialAssessment e u))).2 =
        true →
      assess sq e u =
        (applyBaselineGate sq e (withAttrition e (initialAssessment e u))).1 ∧
      (assess sq e u).final_rating = .does_not_meet) := by
  refine ⟨?_, ?_, ?_⟩
  · intro sq tm cm tsd csd
    simp only [calculate_baseline_equivalence]
    split_ifs with h1 h2 h3 <;> simp_all <;>
      first
        | linarith
        | norm_num
  · intro sq e a tm cm tsd csd h1 h2 h3 h4 hr
    refine ⟨?_, ?_, ?_, ?_⟩
    · intro hst
      simp [applyBaselineGate, hr, h1, h2, h3, h4, hst]
    · intro hst hadj
      simp [applyBaselineGate, hr, h1, h2, h3, h4, hst, hadj]
    · intro hst hadj
      simp [applyBaselineGate, hr, h1, h2, h3, h4, hst, hadj]
    · intro hst
      simp [applyBaselineGate, hr, h1, h2, h3, h4, hst]
  · intro sq e u hrand hterm
    have ha := assess_eq sq e u hrand
    rw [hterm] at ha
    simp only [if_true] at ha
    refine ⟨ha, ?_⟩
    rw [ha]
    exact applyBaselineGate_terminal sq e _ hterm

/-- Witness for C4: a concrete non-equivalent baseline (Cohen d of -1)
terminates the gate with does-not-meet. -/
theorem claim_C4_baseline_equivalence_witness :
    (applyBaselineGate sqOne e4W a4W).2 = true ∧
    ((applyBaselineGate sqOne e4W a4W).1).final_rating = .does_not_meet :=
  (claim_C4_baseline_equivalence.2.1 sqOne e4W a4W 0 1 1 1 rfl rfl rfl rfl
    rfl).1 (by norm_num [calculate_baseline_equivalence, sqOne])

/-- C6 as amended: after a passing randomization gate, overall attrition
is the ratio (baseline minus endline) over baseline whenever both sample
sizes are present and nonzero (Python-truthy) with a positive baseline;
otherwise the mean of the two group attrition rates when both are
present; otherwise it stays null and the assessment continues with a
data-incompleteness warning. -/
theorem claim_C6_overall_attrition (sq : ℚ → ℚ) (e : ExtractedData)
    (u : UserJudgments)
    (h1 : resolvedRandomization e u ≠ some false) :
    (∀ b en, e.baseline_n = some b → e.endline_n = some en →
      b ≠ 0 → en ≠ 0 → 0 < b →
      (assess sq e u).overall_attrition = some ((b - en) / b)) ∧
    (¬ usableSampleSizes e → ∀ t c, e.treatment_attrition = some t →
      e.control_attrition = some c →
      (assess sq e u).overall_attrition = some ((t + c) / 2)) ∧
    (¬ usableSampleSizes e →
      (e.treatment_attrition = none ∨ e.control_attrition = none) →
      (assess sq e u).overall_attrition = none ∧
      Justification.attritionIncompleteWarning ∈
        (assess sq e u).rating_justification) := by
  have hov := assess_overall_eq sq e u h1
  refine ⟨?_, ?_, ?_⟩
  · intro b en hb hen h0 hn hpos
    rw [hov, computeOverallAttrition_ratio e b en hb hen h0 hn hpos]
  · intro hns t c ht hc
    rw [hov, computeOverallAttrition_mean e t c hns ht hc]
  · intro hns hnone
    have ho := computeOverallAttrition_none e hns hnone
    obtain ⟨-, -, -, hw, -⟩ := withAttrition_fields e (initialAssessment e u)
    exact ⟨by rw [hov, ho], assess_mem sq e u h1 _ (hw (Or.inl ho)).2⟩

/-- Counterexample to C6 as stated: both sample sizes are present with a
positive baseline of 100, but the endline count 0 is falsy in Python, so
the code uses the mean of the attrition rates (0.5) instead of the
claimed ratio (100 - 0) / 100 = 1. -/
theorem claim_C6_counterexample :
    e6C.baseline_n = some 100 ∧ e6C.endline_n = some 0 ∧ (0:ℚ) < 100 ∧
    resolvedRandomization e6C uEmpty ≠ some false ∧
    (assess sqZero e6C uEmpty).overall_attrition = some (1/2) ∧
    ((1:ℚ)/2) ≠ ((100:ℚ) - 0) / 100 := by
  refine ⟨rfl, rfl, by norm_num,
    by simp [resolvedRandomization, e6C, uEmpty], ?_, by norm_num⟩
  have h1 : resolvedRandomization e6C uEmpty ≠ some false := by
    simp [resolvedRandomization, e6C, uEmpty]
  rw [assess_overall_eq sqZero e6C uEmpty h1]
  norm_num [computeOverallAttrition, e6C]

/-- Witness for the amended C6 at concrete usable sample sizes. -/
theorem claim_C6_overall_attrition_witness :
    (assess sqZero e6W uEmpty).overall_attrition =
      some ((100 - 95) / 100) :=
  (claim_C6_overall_attrition sqZero e6W uEmpty
    (by simp [resolvedRandomization, e6W, uEmpty])).1 100 95 rfl rfl
    (by norm_num) (by norm_num) (by norm_num)

end WWC

namespace MetaAnalysis

lemma qStatistic_nonneg (data : List (ℚ × ℚ)) : 0 ≤ qStatistic data := by
  apply List.sum_nonneg
  rintro x hx
  rcases List.mem_map.mp hx with ⟨p, hp, rfl⟩
  positivity

lemma sumReWeights_pos (data : List (ℚ × ℚ)) (hne : data ≠ [])
    (hse : ∀ p ∈ data, 0 < p.2) : 0 < sumReWeights data := by
  apply List.sum_pos
  · rintro x hx
    rcases List.mem_map.mp hx with ⟨p, hp, rfl⟩
    have h1 : 0 < p.2 ^ 2 := pow_pos (hse p hp) 2
    have h2 : 0 ≤ tau2DL data := le_max_left _ _
    have h3 : 0 < p.2 ^ 2 + tau2DL data := by linarith
    exact div_pos one_pos h3
  · simpa [reWeights] using hne

/-- Valid input makes the pooling validation pass. -/
lemma pool_eq_ok (k : Kernel) (studies : List Study)
    (hlen : 2 ≤ studies.length) (hse : ∀ s ∈ studies, 0 < s.std_error) :
    perform_random_effects_meta_analysis k studies =
      .ok (poolUnchecked k studies) := by
  have hlt : ¬ studies.length < 2 := by omega
  have hany : ((studies.map (fun s => s.std_error)).any
      (fun x => decide (x ≤ 0))) = false := by
    rw [Bool.eq_false_iff]
    intro hco
    rcases List.any_eq_true.mp hco with ⟨x, hx, hxle⟩
    rcases List.mem_map.mp hx with ⟨s, hs, rfl⟩
    exact absurd (of_decide_eq_true hxle) (not_le.mpr (hse s hs))
  simp [perform_random_effects_meta_analysis, hlt, hany]

lemma filterMap_eq_map_of_forall {α β : Type} {f : α → Option β} {g : α → β} :
    ∀ (l : List α), (∀ x ∈ l, f x = some (g x)) → l.filterMap f = l.map g := by
  intro l h
  induction l with
  | nil => rfl
  | cons a t ih =>
      rw [List.filterMap_cons, h a (List.mem_cons_self a t), List.map_cons,
        ih (fun x hx => h x (List.mem_cons_of_mem a hx))]

/-- On valid input every leave-one-out iteration succeeds, so the loop is
a plain map over the enumerated studies. -/
lemma looEntries_eq (k : Kernel) (studies : List Study) (oe : ℚ)
    (hlen : 3 ≤ studies.length) (hse : ∀ s ∈ studies, 0 < s.std_error) :
    looEntries k studies oe = studies.enum.map (looEntry k studies oe) := by
  unfold looEntries
  apply filterMap_eq_map_of_forall
  rintro ⟨i, s⟩ hmem
  have hi : studies[i]? = some s := List.mk_mem_enum_iff_getElem?.mp hmem
  have hilt : i < studies.length := by
    rcases List.getElem?_eq_some.mp hi with ⟨h, -⟩
    exact h
  have hrest : (studies.eraseIdx i).length = studies.length - 1 :=
    List.length_eraseIdx_of_lt hilt
  have hlen2 : 2 ≤ (studies.eraseIdx i).length := by omega
  have hse2 : ∀ t ∈ studies.eraseIdx i, 0 < t.std_error :=
    fun t ht => hse t (List.eraseIdx_subset _ _ ht)
  have hok := pool_eq_ok k (studies.eraseIdx i) hlen2 hse2
  dsimp only
  rw [if_pos hlen2, hok]
  rfl

lemma influenceUnsorted_length (studies : List Study) (tau2 : ℚ) :
    (influenceUnsorted studies tau2).length = studies.length := by
  simp [influenceUnsorted]

lemma influenceLe_trans : ∀ (a b c : InfluenceEntry),
    influenceLe a b → influenceLe b c → influenceLe a c := by
  intro a b c hab hbc
  simp only [influenceLe, decide_eq_true_eq] at *
  exact le_trans hbc hab

lemma influenceLe_total : ∀ (a b : InfluenceEntry),
    influenceLe a b || influenceLe b a := by
  intro a b
  simp only [influenceLe]
  rcases le_total a.influence_score b.influence_score with h | h <;> simp [h]

end MetaAnalysis

namespace MetaAnalysis

/-- C5: pooling fails with the at-least-2-studies ValidationError when
fewer than 2 studies are supplied, fails with the positive-standard-error
ValidationError when any standard error is nonpositive, and on valid
input produces a pooled result (no error, no other outcome). -/
theorem claim_C5_pool_validation (k : Kernel) (studies : List Study) :
    (studies.length < 2 →
      perform_random_effects_meta_analysis k studies =
        .error (.validationError ("Meta-analysis requires at least 2 studies"))) ∧
    (2 ≤ studies.length → (∃ s ∈ studies, s.std_error ≤ 0) →
      perform_random_effects_meta_analysis k studies =
        .error (.validationError ("Standard errors must be positive"))) ∧
    (2 ≤ studies.length → (∀ s ∈ studies, 0 < s.std_error) →
      perform_random_effects_meta_analysis k studies =
        .ok (poolUnchecked k studies)) := by
  refine ⟨?_, ?_, ?_⟩
  · intro h
    simp [perform_random_effects_meta_analysis, h]
  · rintro h ⟨s, hs, hle⟩
    have hlt : ¬ studies.length < 2 := by omega
    have hany : ((studies.map (fun s => s.std_error)).any
        (fun x => decide (x ≤ 0))) = true := by
      rw [List.any_eq_true]
      exact ⟨s.std_error, List.mem_map_of_mem _ hs, by simpa using hle⟩
    simp [perform_random_effects_meta_analysis, hlt, hany]
  · intro h hpos
    exact pool_eq_ok k studies h hpos

/-- Witness for C5: a single study is rejected with the at-least-2
message. -/
theorem claim_C5_pool_validation_witness :
    perform_random_effects_meta_analysis kW [stA] =
      .error (.validationError ("Meta-analysis requires at least 2 studies")) :=
  (claim_C5_pool_validation kW [stA]).1 (by simp)

/-- C1: on valid input (at least 2 studies, positive standard errors),
given that the square root is nonnegative on nonnegative arguments and
the t critical value is positive, the pooled result satisfies
ci_lower <= pooled_effect <= ci_upper, 0 <= i_squared <= 100 and
tau_squared >= 0. -/
theorem claim_C1_pool_invariants (k : Kernel) (studies : List Study)
    (hsq : ∀ x, 0 ≤ x → 0 ≤ k.sqrt x)
    (htc : ∀ n, 0 < k.tCrit n)
    (hlen : 2 ≤ studies.length)
    (hse : ∀ s ∈ studies, 0 < s.std_error) :
    perform_random_effects_meta_analysis k studies =
      .ok (poolUnchecked k studies) ∧
    (poolUnchecked k studies).ci_lower ≤ (poolUnchecked k studies).pooled_effect ∧
    (poolUnchecked k studies).pooled_effect ≤ (poolUnchecked k studies).ci_upper ∧
    0 ≤ (poolUnchecked k studies).i_squared ∧
    (poolUnchecked k studies).i_squared ≤ 100 ∧
    0 ≤ (poolUnchecked k studies).tau_squared := by
  have hdata_ne : studyData studies ≠ [] := by
    apply List.ne_nil_of_length_pos
    simp only [studyData, List.length_map]
    omega
  have hdse : ∀ p ∈ studyData studies, 0 < p.2 := by
    rintro p hp
    rcases List.mem_map.mp hp with ⟨s, hs, rfl⟩
    exact hse s hs
  have hsum := sumReWeights_pos _ hdata_ne hdse
  have hvar : 0 ≤ varianceRE (studyData studies) := by
    unfold varianceRE
    exact le_of_lt (one_div_pos.mpr hsum)
  have hsd : 0 ≤ k.sqrt (varianceRE (studyData studies)) := hsq _ hvar
  have htcsd : 0 ≤ k.tCrit ((studyData studies).length - 1) *
      k.sqrt (varianceRE (studyData studies)) :=
    mul_nonneg (le_of_lt (htc _)) hsd
  refine ⟨pool_eq_ok k studies hlen hse, ?_, ?_, ?_, ?_, ?_⟩
  · have h1 : (poolUnchecked k studies).ci_lower =
        meanEffectRE (studyData studies) -
          k.tCrit ((studyData studies).length - 1) *
            k.sqrt (varianceRE (studyData studies)) := rfl
    have h2 : (poolUnchecked k studies).pooled_effect =
        meanEffectRE (studyData studies) := rfl
    rw [h1, h2]
    linarith
  · have h1 : (poolUnchecked k studies).ci_upper =
        meanEffectRE (studyData studies) +
          k.tCrit ((studyData studies).length - 1) *
            k.sqrt (varianceRE (studyData studies)) := rfl
    have h2 : (poolUnchecked k studies).pooled_effect =
        meanEffectRE (studyData studies) := rfl
    rw [h1, h2]
    linarith
  · have h1 : (poolUnchecked k studies).i_squared =
        if i2Raw (studyData studies) < 0 then 0
        else i2Raw (studyData studies) := rfl
    rw [h1]
    split_ifs with hneg
    · exact le_refl 0
    · linarith [not_lt.mp hneg]
  · have h1 : (poolUnchecked k studies).i_squared =
        if i2Raw (studyData studies) < 0 then 0
        else i2Raw (studyData studies) := rfl
    have hq := qStatistic_nonneg (studyData studies)
    have hdf : (0:ℚ) ≤ ((studyData studies).length : ℚ) - 1 := by
      have hl : (2:ℚ) ≤ ((studyData studies).length : ℚ) := by
        have h2 : 2 ≤ (studyData studies).length := by
          simpa [studyData, List.length_map] using hlen
        exact_mod_cast h2
      linarith
    have hraw : i2Raw (studyData studies) ≤ 100 := by
      unfold i2Raw
      apply max_le (by norm_num)
      rcases eq_or_lt_of_le hq with hq0 | hq0
      · rw [← hq0]
        simp
      · rw [div_le_iff₀ hq0]
        nlinarith
    rw [h1]
    split_ifs with hneg
    · norm_num
    · exact hraw
  · have h1 : (poolUnchecked k studies).tau_squared =
        tau2DL (studyData studies) := rfl
    rw [h1]
    exact le_max_left _ _

/-- Witness for C1 at two concrete studies and a concrete kernel. -/
theorem claim_C1_pool_invariants_witness :
    perform_random_effects_meta_analysis kW studiesW =
      .ok (poolUnchecked kW studiesW) ∧
    (poolUnchecked kW studiesW).ci_lower ≤
      (poolUnchecked kW studiesW).pooled_effect ∧
    (poolUnchecked kW studiesW).pooled_effect ≤
      (poolUnchecked kW studiesW).ci_upper ∧
    0 ≤ (poolUnchecked kW studiesW).i_squared ∧
    (poolUnchecked kW studiesW).i_squared ≤ 100 ∧
    0 ≤ (poolUnchecked kW studiesW).tau_squared :=
  claim_C1_pool_invariants kW studiesW
    (fun x hx => le_refl 0)
    (fun n => by norm_num [kW])
    (by simp [studiesW])
    (by
      intro s hs
      simp only [studiesW, List.mem_cons, List.mem_singleton] at hs
      rcases hs with rfl | rfl | h
      · norm_num
      · norm_num
      · simp at h)

/-- C10: in the confidence-interval fallback chain of pool, when the
combination step returns a NaN bound and the pooled standard error is
unusable (NaN or the falsy 0.0), the reported bounds fall back to the
fixed constants pooled_effect - 0.5 and pooled_effect + 0.5. -/
theorem claim_C10_ci_fallback (pooled : ℚ) (sd : Option ℚ)
    (h : sd = none ∨ sd = some 0) :
    ciLowerFrom none pooled sd = pooled - 1/2 ∧
    ciUpperFrom none pooled sd = pooled + 1/2 := by
  rcases h with h | h <;> subst h <;> simp [ciLowerFrom, ciUpperFrom]

/-- Witness for C10 with NaN bound and NaN standard error. -/
theorem claim_C10_ci_fallback_witness :
    ciLowerFrom none 0 none = 0 - 1/2 ∧
    ciUpperFrom none 0 none = 0 + 1/2 :=
  claim_C10_ci_fallback 0 none (Or.inl rfl)

end MetaAnalysis

namespace MetaAnalysis

/-- C7: the bias test never raises -- it is a total function into results.
With fewer than 3 studies it returns all-null numeric fields and an
interpretation containing the text at least 3 studies; with 3 or more
studies, an ill-conditioned design matrix (condition number above 1e12)
or a nonpositive intercept variance yields all-null numeric fields with
an explanatory interpretation; on 3 or more well-conditioned studies the
returned intercept p-value is non-null and lies in [0, 1] (given the
mathematical bounds of the t CDF on nonnegative arguments). -/
theorem claim_C7_eggers_robustness (k : Kernel) (data : List (ℚ × ℚ)) :
    (data.length < 3 →
      perform_eggers_test k data =
        { intercept := none, intercept_se := none, intercept_pvalue := none,
          interpretation := "Egger\x27s test requires at least 3 studies" } ∧
      ∃ pre post, (perform_eggers_test k data).interpretation =
        pre ++ "at least 3 studies" ++ post) ∧
    (3 ≤ data.length →
      (k.cond2x2 (eggerSumW data) (eggerSumWP data) (eggerSumWP data)
          (eggerSumWPP data) > 10 ^ 12 ∨ eggerVarIntercept data ≤ 0) →
      (perform_eggers_test k data).intercept = none ∧
      (perform_eggers_test k data).intercept_se = none ∧
      (perform_eggers_test k data).intercept_pvalue = none) ∧
    (3 ≤ data.length →
      k.cond2x2 (eggerSumW data) (eggerSumWP data) (eggerSumWP data)
        (eggerSumWPP data) ≤ 10 ^ 12 →
      eggerDet data ≠ 0 →
      0 < eggerVarIntercept data →
      (∀ x n, 0 ≤ x → 1/2 ≤ k.tCdf x n ∧ k.tCdf x n ≤ 1) →
      ∃ p, (perform_eggers_test k data).intercept_pvalue = some p ∧
        0 ≤ p ∧ p ≤ 1) := by
  refine ⟨?_, ?_, ?_⟩
  · intro h
    refine ⟨by simp [perform_eggers_test, h], "Egger\x27s test requires ",
      "", ?_⟩
    simp [perform_eggers_test, h]
  · intro hlen hbad
    have hnl : ¬ data.length < 3 := by omega
    unfold perform_eggers_test
    rw [if_neg hnl]
    split_ifs with h1 h2 h3
    · simp [eggerFailure]
    · simp [eggerFailure]
    · simp [eggerFailure]
    · rcases hbad with hb | hb
      · exact absurd hb h1
      · exact absurd hb h3
  · intro hlen hcond hdet hvar htq
    have hnl : ¬ data.length < 3 := by omega
    unfold perform_eggers_test
    rw [if_neg hnl, if_neg (not_lt.mpr hcond), if_neg hdet,
      if_neg (not_le.mpr hvar)]
    refine ⟨2 * (1 - k.tCdf |eggerIntercept data /
      k.sqrt (eggerVarIntercept data)| (data.length - 2)), rfl, ?_, ?_⟩
    · obtain ⟨-, hhi⟩ := htq (|eggerIntercept data /
        k.sqrt (eggerVarIntercept data)|) (data.length - 2) (abs_nonneg _)
      linarith
    · obtain ⟨hlo, -⟩ := htq (|eggerIntercept data /
        k.sqrt (eggerVarIntercept data)|) (data.length - 2) (abs_nonneg _)
      linarith

/-- Witness for C7: two studies yield the all-null at-least-3 result. -/
theorem claim_C7_eggers_robustness_witness :
    perform_eggers_test kW dataE2 =
      { intercept := none, intercept_se := none, intercept_pvalue := none,
        interpretation := "Egger\x27s test requires at least 3 studies" } :=
  ((claim_C7_eggers_robustness kW dataE2).1 (by simp [dataE2])).1

end MetaAnalysis

namespace MetaAnalysis

/-- C9 as amended: with fewer than 2 qualifying subgroups the comparison
fields are null with the at-least-2 interpretation; with 2 or more
qualifying subgroups whose backed-out standard errors are positive, the
accumulated statistic equals the claimed sum over all groups, and when it
is strictly positive the comparison reports it with df = groups - 1, the
chi-square upper-tail p-value and an interpretation embedding both; when
it is zero the q_between and p_value fields are null (df still reported)
with the could-not-calculate interpretation. -/
theorem claim_C9_subgroup_comparison (k : Kernel)
    (subgroup_results : List (String × PooledResult))
    (overall : PooledResult) :
    (subgroup_results.length < 2 →
      calculate_subgroup_comparison k subgroup_results overall =
        { q_between := none, df := none, p_value := none,
          interpretation := .atLeastTwoRequired }) ∧
    (2 ≤ subgroup_results.length →
      (∀ g ∈ subgroup_results, 0 < subgroupSE g.2) →
      qBetween subgroup_results overall.pooled_effect =
        claimQBetween subgroup_results overall.pooled_effect ∧
      (0 < qBetween subgroup_results overall.pooled_effect →
        calculate_subgroup_comparison k subgroup_results overall =
          { q_between := some (qBetween subgroup_results overall.pooled_effect),
            df := some (subgroup_results.length - 1),
            p_value := some (1 - k.chi2Cdf
              (qBetween subgroup_results overall.pooled_effect)
              (subgroup_results.length - 1)),
            interpretation :=
              if 1 - k.chi2Cdf (qBetween subgroup_results overall.pooled_effect)
                  (subgroup_results.length - 1) < 5/100 then
                .significant (qBetween subgroup_results overall.pooled_effect)
                  (1 - k.chi2Cdf
                    (qBetween subgroup_results overall.pooled_effect)
                    (subgroup_results.length - 1))
              else
                .notSignificant
                  (qBetween subgroup_results overall.pooled_effect)
                  (1 - k.chi2Cdf
                    (qBetween subgroup_results overall.pooled_effect)
                    (subgroup_results.length - 1)) }) ∧
      (qBetween subgroup_results overall.pooled_effect = 0 →
        (calculate_subgroup_comparison k subgroup_results overall).q_between
          = none ∧
        (calculate_subgroup_comparison k subgroup_results overall).p_value
          = none ∧
        (calculate_subgroup_comparison k subgroup_results overall).df
          = some (subgroup_results.length - 1) ∧
        (calculate_subgroup_comparison k subgroup_results overall).interpretation
          = .couldNotCalculate)) := by
  constructor
  · intro h
    simp [calculate_subgroup_comparison, h]
  · intro hlen hpos
    have hnl : ¬ subgroup_results.length < 2 := by omega
    have hdf : 0 < subgroup_results.length - 1 := by omega
    refine ⟨?_, ?_, ?_⟩
    · unfold qBetween claimQBetween
      congr 1
      apply List.map_congr_left
      intro g hg
      rw [if_pos (hpos g hg)]
    · intro hq
      unfold calculate_subgroup_comparison
      rw [if_neg hnl]
      simp only [if_pos (And.intro hdf hq), if_pos hq]
    · intro hq0
      unfold calculate_subgroup_comparison
      rw [if_neg hnl, hq0]
      have hco : ¬ (0 < subgroup_results.length - 1 ∧ (0:ℚ) < 0) := by
        rintro ⟨-, h⟩
        exact lt_irrefl 0 h
      simp only [if_neg hco, if_neg (lt_irrefl (0:ℚ))]
      exact ⟨trivial, trivial, trivial, trivial⟩

/-- Counterexample to C9 as stated: two qualifying subgroups whose pooled
effects both equal the overall effect make the accumulated statistic zero,
and the code then reports a null q_between and a null p-value instead of
the claimed statistic and chi-square p-value. -/
theorem claim_C9_counterexample :
    (([("A", cxPR), ("B", cxPR)] : List (String × PooledResult))).length = 2 ∧
    0 < subgroupSE cxPR ∧
    qBetween [("A", cxPR), ("B", cxPR)] cxPR.pooled_effect = 0 ∧
    (calculate_subgroup_comparison kW [("A", cxPR), ("B", cxPR)] cxPR).q_between
      = none ∧
    (calculate_subgroup_comparison kW [("A", cxPR), ("B", cxPR)] cxPR).p_value
      = none ∧
    (calculate_subgroup_comparison kW
      [("A", cxPR), ("B", cxPR)] cxPR).interpretation = .couldNotCalculate := by
  refine ⟨rfl, ?_, ?_, ?_, ?_, ?_⟩
  · norm_num [subgroupSE, cxPR]
  · norm_num [qBetween, subgroupSE, cxPR]
  · norm_num [calculate_subgroup_comparison, qBetween, subgroupSE, cxPR]
  · norm_num [calculate_subgroup_comparison, qBetween, subgroupSE, cxPR]
  · norm_num [calculate_subgroup_comparison, qBetween, subgroupSE, cxPR]

/-- Witness for the amended C9: a single subgroup gets the all-null
at-least-2 result. -/
theorem claim_C9_subgroup_comparison_witness :
    calculate_subgroup_comparison kW [("A", cxPR)] cxPR =
      { q_between := none, df := none, p_value := none,
        interpretation := .atLeastTwoRequired } :=
  (claim_C9_subgroup_comparison kW [("A", cxPR)] cxPR).1 (by simp)

end MetaAnalysis

namespace MetaAnalysis

/-- C8: with fewer than 3 studies the sensitivity analysis raises the
at-least-3 ValidationError; on valid input of k studies it returns
exactly k leave-one-out entries -- the i-th recording the omitted study
label, the pooled effect and CI over the remaining k-1 studies, and the
signed difference from the full-set pooled effect -- and exactly k
influence entries, a permutation of the per-study influence records
(normalized weight with the overall tau-squared times absolute deviation
from the weighted mean) sorted non-increasing by influence score. -/
theorem claim_C8_sensitivity (k : Kernel) (studies : List Study) :
    (studies.length < 3 →
      perform_sensitivity_analysis k studies =
        .error (.validationError
          ("Sensitivity analysis requires at least 3 studies"))) ∧
    (3 ≤ studies.length → (∀ s ∈ studies, 0 < s.std_error) →
      ∃ r, perform_sensitivity_analysis k studies = .ok r ∧
        r.overall_effect = (poolUnchecked k studies).pooled_effect ∧
        r.leave_one_out.length = studies.length ∧
        r.influence_diagnostics.length = studies.length ∧
        List.Pairwise (fun a b => b.influence_score ≤ a.influence_score)
          r.influence_diagnostics ∧
        r.influence_diagnostics.Perm
          (influenceUnsorted studies (poolUnchecked k studies).tau_squared) ∧
        (∀ i s, studies[i]? = some s →
          perform_random_effects_meta_analysis k (studies.eraseIdx i) =
            .ok (poolUnchecked k (studies.eraseIdx i)) ∧
          r.leave_one_out[i]? = some (looEntry k studies
            (poolUnchecked k studies).pooled_effect (i, s)))) := by
  constructor
  · intro h
    simp [perform_sensitivity_analysis, h]
  · intro hlen hse
    have hnl : ¬ studies.length < 3 := by omega
    have hok := pool_eq_ok k studies (by omega) hse
    refine ⟨{ overall_effect := (poolUnchecked k studies).pooled_effect,
              leave_one_out := looEntries k studies
                (poolUnchecked k studies).pooled_effect,
              influence_diagnostics :=
                (influenceUnsorted studies
                  (poolUnchecked k studies).tau_squared).mergeSort influenceLe,
              n_studies := studies.length },
            ?_, rfl, ?_, ?_, ?_, ?_, ?_⟩
    · unfold perform_sensitivity_analysis
      rw [if_neg hnl, hok]
    · rw [looEntries_eq k studies _ hlen hse]
      simp
    · simp [influenceUnsorted_length]
    · exact (List.sorted_mergeSort influenceLe_trans influenceLe_total
        (influenceUnsorted studies
          (poolUnchecked k studies).tau_squared)).imp
        (fun h => of_decide_eq_true h)
    · exact List.mergeSort_perm _ _
    · intro i s hi
      have hilt : i < studies.length := by
        rcases List.getElem?_eq_some.mp hi with ⟨h, -⟩
        exact h
      have hrest : (studies.eraseIdx i).length = studies.length - 1 :=
        List.length_eraseIdx_of_lt hilt
      have hse2 : ∀ t ∈ studies.eraseIdx i, 0 < t.std_error :=
        fun t ht => hse t (List.eraseIdx_subset _ _ ht)
      refine ⟨pool_eq_ok k (studies.eraseIdx i) (by omega) hse2, ?_⟩
      rw [looEntries_eq k studies _ hlen hse, List.getElem?_map,
        List.enum_eq_enumFrom, List.getElem?_enumFrom, hi]
      simp

/-- Witness for C8 at three concrete unit-error studies: the analysis
succeeds and returns three leave-one-out entries and three influence
entries. -/
theorem claim_C8_sensitivity_witness :
    (perform_sensitivity_analysis kW studiesS3).map
      (fun r => (r.leave_one_out.length, r.influence_diagnostics.length)) =
      .ok (3, 3) := by
  obtain ⟨r, hr, -, hl, hi, -⟩ :=
    (claim_C8_sensitivity kW studiesS3).2 (by simp [studiesS3])
      (by
        intro s hs
        simp only [studiesS3, List.mem_cons, List.mem_singleton] at hs
        rcases hs with rfl | rfl | rfl | h
        · norm_num
        · norm_num
        · norm_num
        · simp at h)
  rw [hr]
  simp only [Except.map, hl, hi, studiesS3]
  rfl

end MetaAnalysis
